import Mathlib

/-!
Verification of the ovpn-dco data-channel core against its design document.

The development shallowly embeds the C sources (aead.c, bind.c) over plain
byte lists (`List Nat`, each entry a byte value).  Components of the
repository that are declared but whose definitions are not part of the
available sources (pktid.h, proto.h, addr.c and the kernel crypto API) are
modelled from the design document; every such definition carries a doc
comment starting with "Modelled from the spec".
-/

/-! ## Protocol constants (proto.h / pktid.h are not in the sources) -/

/-- Modelled from the spec: size of the legacy DATA_V1 header (1 byte opcode). -/
def OVPN_OP_SIZE_V1 : Nat := 1

/-- Modelled from the spec: size of the DATA_V2 header (1 byte opcode plus
3 bytes peer id). -/
def OVPN_OP_SIZE_V2 : Nat := 4

/-- Modelled from the spec: the AEAD nonce is 96 bits = 12 bytes. -/
def NONCE_SIZE : Nat := 12

/-- Modelled from the spec: only the 4-byte packet id part of the nonce is
transmitted on the wire. -/
def NONCE_WIRE_SIZE : Nat := 4

/-- Modelled from the spec: sizeof(struct ovpn_nonce_tail), the pre-shared
nonce tail, 96 bits total minus the 32-bit packet id = 8 bytes. -/
def NONCE_TAIL_SIZE : Nat := NONCE_SIZE - NONCE_WIRE_SIZE

/-- Modelled from the spec: opcode of the legacy data channel packet. -/
def OVPN_DATA_V1 : Nat := 6

/-- Modelled from the spec: opcode of the current data channel packet. -/
def OVPN_DATA_V2 : Nat := 9

/-- Authentication tag size: fixed to 16 bytes by ovpn_aead_init
(auth_tag_size = 16 in aead.c). -/
def AUTH_TAG_SIZE : Nat := 16

/-! ## Error codes (linux errno values, as used by the C sources) -/

def EINVAL : Int := 22
def ERANGE : Int := 34
def EBADMSG : Int := 74
def EOPNOTSUPP : Int := 95
def EAFNOSUPPORT : Int := 97

/-! ## Big-endian 32-bit serialization (htonl / ntohl) -/

/-- Big-endian byte encoding of a 32-bit word, as written by htonl. -/
def be32 (n : Nat) : List Nat :=
  [n / 2 ^ 24 % 256, n / 2 ^ 16 % 256, n / 2 ^ 8 % 256, n % 256]

/-- Big-endian value of a byte list, as read by ntohl. -/
def beNat (l : List Nat) : Nat :=
  l.foldl (fun a b => a * 256 + b) 0

/-! ## The AEAD primitive

The cipher itself lives behind the kernel crypto API and is not part of the
sources.  Modelled from the spec: an AEAD produces ciphertext plus an
integrity tag over both the ciphertext and the additional authenticated
data; decryption with the same key, nonce and AAD inverts encryption, and a
tag mismatch fails with AuthenticationFailed (EBADMSG, the kernel crypto
verdict for a bad tag).  The concrete keystream and tag functions below are
a deterministic stand-in for gcm(aes); only the AEAD interface contract
matters to the claims. -/

/-- Mixing digest over a byte list, used by the modelled AEAD. -/
def digest (l : List Nat) : Nat :=
  l.foldl (fun a b => (a * 131 + b + 1) % 65536) 9

/-- Keystream byte i for the given key and nonce (modelled AEAD). -/
def prf (key nonce : List Nat) (i : Nat) : Nat :=
  (digest key * 7 + digest nonce * 13 + i * 31 + 3) % 256

/-- Encrypting keystream application (modelled AEAD). -/
def streamEnc (key nonce : List Nat) : Nat → List Nat → List Nat
  | _, [] => []
  | i, b :: bs => (b + prf key nonce i) % 256 :: streamEnc key nonce (i + 1) bs

/-- Decrypting keystream application (modelled AEAD). -/
def streamDec (key nonce : List Nat) : Nat → List Nat → List Nat
  | _, [] => []
  | i, c :: cs => (c + 256 - prf key nonce i) % 256 :: streamDec key nonce (i + 1) cs

/-- Authentication tag over key, nonce, AAD and ciphertext (modelled AEAD). -/
def aeadTag (key nonce aad ct : List Nat) : List Nat :=
  (List.range AUTH_TAG_SIZE).map fun j =>
    (digest key * 3 + digest nonce * 5 + digest aad * 7 + digest ct * 11 + j) % 256

/-- AEAD encryption: ciphertext and tag (modelled AEAD). -/
def aeadSeal (key nonce aad pt : List Nat) : List Nat × List Nat :=
  let ct := streamEnc key nonce 0 pt
  (ct, aeadTag key nonce aad ct)

/-- AEAD decryption: checks the tag, then inverts the keystream; fails with
EBADMSG on tag mismatch (modelled AEAD). -/
def aeadOpen (key nonce aad ct tag : List Nat) : Except Int (List Nat) :=
  if tag = aeadTag key nonce aad ct then .ok (streamDec key nonce 0 ct)
  else .error (-EBADMSG)

/-! ## Packet-id state (pktid.h is not in the sources) -/

/-- Transmit packet-id state: the strictly increasing sequence counter. -/
structure PidXmit where
  seq : Nat
  deriving DecidableEq

/-- Modelled from the spec: the 32-bit transmit packet-id space; the counter
must never wrap past this value. -/
def PKTID_MAX : Nat := 2 ^ 32 - 1

/-- Modelled from the spec: ovpn_pktid_xmit_init installs a fresh counter. -/
def ovpn_pktid_xmit_init : PidXmit := ⟨0⟩

/-- Modelled from the spec: ovpn_pktid_xmit_next yields the next transmit
packet id, failing with PacketIdExhausted (a dedicated negative code,
ERANGE) when the 32-bit counter would wrap; the failure leaves the counter
in place so the id space is never silently reused.  C calling convention:
returns (ret, out parameter pktid, updated state). -/
def ovpn_pktid_xmit_next (p : PidXmit) : Int × Nat × PidXmit :=
  if p.seq < PKTID_MAX then (0, p.seq + 1, ⟨p.seq + 1⟩)
  else (-ERANGE, 0, p)

/-- Modelled from the spec: width of the receive replay window. -/
def PKTID_RECV_WINDOW : Nat := 128

/-- Receive replay-window state: highest id seen plus a bitmap of the last
PKTID_RECV_WINDOW ids (bit i set means id highest - i was accepted). -/
structure PidRecv where
  highest : Nat
  bitmap : Nat
  deriving DecidableEq

/-- Modelled from the spec: ovpn_pktid_recv_init installs an empty window. -/
def ovpn_pktid_recv_init : PidRecv := ⟨0, 0⟩

/-- Modelled from the spec: ovpn_pktid_recv accepts and records an id that
is newer than the highest seen (sliding the window forward) or inside the
window and not yet marked; rejects everything else with ReplayDetected
(EINVAL) without touching the state. -/
def ovpn_pktid_recv (p : PidRecv) (id : Nat) : Int × PidRecv :=
  if p.highest < id then
    (0, ⟨id, (p.bitmap <<< (id - p.highest)) % 2 ^ PKTID_RECV_WINDOW ||| 1⟩)
  else if p.highest - id < PKTID_RECV_WINDOW ∧ (p.bitmap >>> (p.highest - id)) % 2 = 0 then
    (0, ⟨p.highest, p.bitmap ||| 1 <<< (p.highest - id)⟩)
  else
    (-EINVAL, p)

/-! ## Header op word (proto.h is not in the sources) -/

/-- Modelled from the spec: the 32-bit op word packs opcode (5 bits),
key id (3 bits) and peer id (24 bits), big-endian on the wire. -/
def ovpn_op32_compose (opcode key_id peer_id : Nat) : Nat :=
  opcode % 32 * 2 ^ 27 + key_id % 8 * 2 ^ 24 + peer_id % 2 ^ 24

/-- Modelled from the spec: extracts the 5-bit opcode from an op word. -/
def ovpn_opcode_extract (op : Nat) : Nat := op / 2 ^ 27 % 32

/-- Modelled from the spec: the receive path reads the op word from the
first four bytes of the wire packet before dispatching to decrypt. -/
def ovpn_op32_from_skb (skb : List Nat) : Nat := beNat (skb.take 4)

/-! ## Key slot -/

/-- An AEAD cipher context as configured by ovpn_aead_init: the installed
key (the kernel crypto handle itself is external). -/
structure CryptoCtx where
  key : List Nat
  deriving DecidableEq

/-- struct ovpn_crypto_key_slot: the AEAD variant fields of the union plus
the per-direction packet-id state. -/
structure KeySlot where
  key_id : Nat
  remote_peer_id : Nat
  encrypt : CryptoCtx
  decrypt : CryptoCtx
  nonce_tail_xmit : List Nat
  nonce_tail_recv : List Nat
  pid_xmit : PidXmit
  pid_recv : PidRecv
  deriving DecidableEq

/-- Models get_random_bytes: the kernel entropy source is external, so the
entropy consumed is passed in as rnd and padded to the requested length. -/
def get_random_bytes (rnd : List Nat) (n : Nat) : List Nat :=
  (rnd ++ List.replicate n 0).take n

/-- Modelled from the spec: ovpn_pktid_aead_write places htonl(pktid) in the
first NONCE_WIRE_SIZE bytes of dest and the NONCE_TAIL_SIZE nonce-tail bytes
right after; together they cover all NONCE_SIZE bytes of dest. -/
def ovpn_pktid_aead_write (pktid : Nat) (nt : List Nat) (dest : List Nat) : List Nat :=
  be32 pktid ++ nt.take NONCE_TAIL_SIZE ++ dest.drop (NONCE_WIRE_SIZE + NONCE_TAIL_SIZE)

/-- Embeds ovpn_aead_encap_overhead (aead.c): header plus packet id plus
authentication tag. -/
def ovpn_aead_encap_overhead (_ks : KeySlot) : Nat :=
  OVPN_OP_SIZE_V2 + 4 + AUTH_TAG_SIZE

/-- Embeds ovpn_aead_encrypt (aead.c).  skb is the plaintext packet as a
byte list and rnd the entropy get_random_bytes consumes.  The memory
management steps (skb_cow_head, skb_cow_data, scatterlist setup,
aead_request_alloc) cannot fail in this model.  The wire packet layout
follows the scatterlist layout of the source: op word, wire nonce,
authentication tag, ciphertext.  Returns the wire packet or the error code,
together with the updated transmit packet-id state. -/
def ovpn_aead_encrypt (ks : KeySlot) (skb : List Nat) (rnd : List Nat) :
    Except Int (List Nat) × PidXmit :=
  let r := ovpn_pktid_xmit_next ks.pid_xmit
  let ret := r.1
  let pktid := r.2.1
  let pidNew := r.2.2
  if ret < 0 ∧ ret ≠ -1 then (.error ret, pidNew)
  else
    let iv := ovpn_pktid_aead_write pktid ks.nonce_tail_xmit (get_random_bytes rnd NONCE_SIZE)
    let wire_nonce := iv.take NONCE_WIRE_SIZE
    let op := ovpn_op32_compose OVPN_DATA_V2 ks.key_id ks.remote_peer_id
    let ad := be32 op ++ wire_nonce
    let sealed := aeadSeal ks.encrypt.key iv ad skb
    (.ok (ad ++ sealed.2 ++ sealed.1), pidNew)

/-- Header size for a data opcode, as selected at the top of
ovpn_aead_decrypt (aead.c). -/
def opcode_opsize (opcode : Nat) : Nat :=
  if opcode = OVPN_DATA_V2 then OVPN_OP_SIZE_V2 else OVPN_OP_SIZE_V1

/-- The additional authenticated data range selected by ovpn_aead_decrypt
(aead.c): for DATA_V2 the op word plus the wire nonce, for DATA_V1 only the
wire nonce after the 1-byte op. -/
def decrypt_ad (opcode : Nat) (skb : List Nat) : List Nat :=
  if opcode = OVPN_DATA_V1 then (skb.drop OVPN_OP_SIZE_V1).take NONCE_WIRE_SIZE
  else skb.take (OVPN_OP_SIZE_V2 + NONCE_WIRE_SIZE)

/-- The nonce rebuilt by ovpn_aead_decrypt (aead.c): the wire nonce copied
from the packet followed by the receive-direction nonce tail. -/
def decrypt_iv (ks : KeySlot) (opsize : Nat) (skb : List Nat) : List Nat :=
  (skb.drop opsize).take NONCE_WIRE_SIZE ++ ks.nonce_tail_recv

/-- Embeds ovpn_aead_decrypt (aead.c).  skb is the wire packet as a byte
list and op the 32-bit op word the caller extracted from its head.  Returns
the plaintext or the error code, together with the updated receive
packet-id state. -/
def ovpn_aead_decrypt (ks : KeySlot) (skb : List Nat) (op : Nat) :
    Except Int (List Nat) × PidRecv :=
  let opcode := ovpn_opcode_extract op
  if opcode = OVPN_DATA_V2 ∨ opcode = OVPN_DATA_V1 then
    let opsize := opcode_opsize opcode
    let payload_offset := opsize + NONCE_WIRE_SIZE + AUTH_TAG_SIZE
    if skb.length < payload_offset then (.error (-EINVAL), ks.pid_recv)
    else
      let ad := decrypt_ad opcode skb
      let tag := (skb.drop (opsize + NONCE_WIRE_SIZE)).take AUTH_TAG_SIZE
      let ct := skb.drop payload_offset
      let iv := decrypt_iv ks opsize skb
      match aeadOpen ks.decrypt.key iv ad ct tag with
      | .error e => (.error e, ks.pid_recv)
      | .ok pt =>
          let pid := beNat ((skb.drop opsize).take 4)
          let rr := ovpn_pktid_recv ks.pid_recv pid
          if rr.1 < 0 then (.error rr.1, rr.2)
          else (.ok pt, rr.2)
  else (.error (-EINVAL), ks.pid_recv)

/-! ## Key slot lifecycle (aead.c)

Cipher contexts are kernel objects; to reason about leaks the functions
below thread a ledger counting the live AEAD contexts (crypto_alloc_aead
increments it, crypto_free_aead decrements it). -/

/-- enum ovpn_cipher_alg (crypto.h is not in the sources).  Modelled from
the spec: only a single AEAD family is supported. -/
inductive ovpn_cipher_alg where
  | alg_none
  | aes_gcm
  deriving DecidableEq

/-- Embeds crypto_free_aead over the ledger: frees a context unless it is
NULL (a no-op on NULL, as in the kernel). -/
def crypto_free_aead (live : Nat) (ctx : Option CryptoCtx) : Nat :=
  match ctx with
  | none => live
  | some _ => live - 1

/-- Embeds ovpn_aead_init (aead.c).  crypto_alloc_aead allocates a context
(ledger + 1); crypto_aead_setkey is Modelled from the spec: it fails with
InvalidKeyLength (EINVAL) unless the key length is a valid AES key size;
crypto_aead_setauthsize(16) and the ivsize == EXPECTED_IV_SIZE check cannot
fail for gcm(aes).  On the failure path the context is freed again before
returning the error. -/
def ovpn_aead_init (live : Nat) (key : List Nat) (keylen : Nat) :
    Except Int CryptoCtx × Nat :=
  let live1 := live + 1
  if keylen = 16 ∨ keylen = 24 ∨ keylen = 32 then
    (.ok ⟨key.take keylen⟩, live1)
  else
    (.error (-EINVAL), live1 - 1)

/-- Embeds ovpn_aead_crypto_key_slot_destroy (aead.c) over the ledger: it
frees both cipher contexts (each a no-op when still NULL) and the slot
itself. -/
def ovpn_aead_crypto_key_slot_destroy (live : Nat) (enc dec : Option CryptoCtx) : Nat :=
  crypto_free_aead (crypto_free_aead live enc) dec

/-- Embeds ovpn_aead_crypto_key_slot_init (aead.c): validates the algorithm
(EOPNOTSUPP otherwise), builds both cipher contexts, checks that both
nonce-tail lengths equal sizeof(struct ovpn_nonce_tail) (EINVAL otherwise),
copies the tails and installs fresh packet-id state; every failure path
goes through ovpn_aead_crypto_key_slot_destroy.  remote_peer_id is set by
the caller later and starts at 0. -/
def ovpn_aead_crypto_key_slot_init
    (alg : ovpn_cipher_alg)
    (encrypt_key : List Nat) (encrypt_keylen : Nat)
    (decrypt_key : List Nat) (decrypt_keylen : Nat)
    (encrypt_nonce_tail : List Nat) (encrypt_nonce_tail_len : Nat)
    (decrypt_nonce_tail : List Nat) (decrypt_nonce_tail_len : Nat)
    (key_id : Nat) (live : Nat) : Except Int KeySlot × Nat :=
  match alg with
  | .aes_gcm =>
    let e := ovpn_aead_init live encrypt_key encrypt_keylen
    match e.1 with
    | .error ret => (.error ret, ovpn_aead_crypto_key_slot_destroy e.2 none none)
    | .ok encCtx =>
      let d := ovpn_aead_init e.2 decrypt_key decrypt_keylen
      match d.1 with
      | .error ret => (.error ret, ovpn_aead_crypto_key_slot_destroy d.2 (some encCtx) none)
      | .ok decCtx =>
        if NONCE_TAIL_SIZE ≠ encrypt_nonce_tail_len ∨ NONCE_TAIL_SIZE ≠ decrypt_nonce_tail_len then
          (.error (-EINVAL),
           ovpn_aead_crypto_key_slot_destroy d.2 (some encCtx) (some decCtx))
        else
          (.ok { key_id := key_id
                 remote_peer_id := 0
                 encrypt := encCtx
                 decrypt := decCtx
                 nonce_tail_xmit := encrypt_nonce_tail.take NONCE_TAIL_SIZE
                 nonce_tail_recv := decrypt_nonce_tail.take NONCE_TAIL_SIZE
                 pid_xmit := ovpn_pktid_xmit_init
                 pid_recv := ovpn_pktid_recv_init }, d.2)
  | _ => (.error (-EOPNOTSUPP), live)

/-- struct ovpn_key_config (crypto.h is not in the sources).  Modelled from
the spec: algorithm identifier, two keys, two nonce tails, key id. -/
structure ovpn_key_config where
  cipher_alg : ovpn_cipher_alg
  encrypt_cipher_key : List Nat
  encrypt_cipher_key_size : Nat
  decrypt_cipher_key : List Nat
  decrypt_cipher_key_size : Nat
  encrypt_nonce_tail : List Nat
  encrypt_nonce_tail_size : Nat
  decrypt_nonce_tail : List Nat
  decrypt_nonce_tail_size : Nat
  key_id : Nat
  deriving DecidableEq

/-- Embeds ovpn_aead_crypto_key_slot_new (aead.c). -/
def ovpn_aead_crypto_key_slot_new (kc : ovpn_key_config) (live : Nat) :
    Except Int KeySlot × Nat :=
  ovpn_aead_crypto_key_slot_init kc.cipher_alg
    kc.encrypt_cipher_key kc.encrypt_cipher_key_size
    kc.decrypt_cipher_key kc.decrypt_cipher_key_size
    kc.encrypt_nonce_tail kc.encrypt_nonce_tail_size
    kc.decrypt_nonce_tail kc.decrypt_nonce_tail_size
    kc.key_id live

/-! ## Peer binding (bind.c) -/

def AF_INET : Nat := 2
def AF_INET6 : Nat := 10

/-- sizeof(struct sockaddr_in). -/
def sizeof_sockaddr_in : Nat := 16

/-- sizeof(struct sockaddr_in6). -/
def sizeof_sockaddr_in6 : Nat := 28

/-- struct sockaddr_storage: the 2-byte family field followed by the rest
of the storage bytes. -/
structure SockaddrStorage where
  ss_family : Nat
  ss_data : List Nat
  deriving DecidableEq

/-- struct ovpn_bind: the copied socket address. -/
structure OvpnBind where
  sa_family : Nat
  sa_data : List Nat
  deriving DecidableEq

/-- Modelled from the spec: ovpn_sockaddr_validate (addr.c is not in the
sources) validates the address family and length; only the two supported
families pass. -/
def ovpn_sockaddr_validate (ss : SockaddrStorage) : Int :=
  if ss.ss_family = AF_INET ∨ ss.ss_family = AF_INET6 then 0 else -EAFNOSUPPORT

/-- Embeds ovpn_bind_from_sockaddr (bind.c): selects the family-appropriate
length (EAFNOSUPPORT for any other family), validates the address, and
allocates a Bind holding a copy of the first sa_len bytes of the sockaddr
(the 2-byte family field plus sa_len - 2 data bytes).  kzalloc cannot fail
in this model. -/
def ovpn_bind_from_sockaddr (ss : SockaddrStorage) : Except Int OvpnBind :=
  if ss.ss_family = AF_INET ∨ ss.ss_family = AF_INET6 then
    let sa_len := if ss.ss_family = AF_INET then sizeof_sockaddr_in else sizeof_sockaddr_in6
    if ovpn_sockaddr_validate ss < 0 then .error (ovpn_sockaddr_validate ss)
    else .ok { sa_family := ss.ss_family, sa_data := ss.ss_data.take (sa_len - 2) }
  else .error (-EAFNOSUPPORT)

/-! ## Concrete test material used by witnesses and counterexamples -/

def exKey1 : List Nat := [1, 2, 3, 4, 5, 6, 7, 8, 9, 10, 11, 12, 13, 14, 15, 16]

def exKey2 : List Nat := [21, 22, 23, 24, 25, 26, 27, 28, 29, 30, 31, 32, 33, 34, 35, 36]

def exTail : List Nat := [1, 1, 2, 2, 3, 3, 4, 4]

def exPt : List Nat := [10, 20, 30]

def exRnd : List Nat := List.replicate 12 0

/-- Fallback slot for impossible match arms of the example definitions. -/
def exSlotZero : KeySlot := ⟨0, 0, ⟨[]⟩, ⟨[]⟩, [], [], ⟨0⟩, ⟨0, 0⟩⟩

/-- A loopback slot: both directions carry the same key and nonce tail, as
a self-test harness would configure them. -/
def exInitLoop : Except Int KeySlot × Nat :=
  ovpn_aead_crypto_key_slot_init .aes_gcm exKey1 16 exKey1 16 exTail 8 exTail 8 3 0

def exSlotLoop : KeySlot :=
  match exInitLoop.1 with
  | .ok ks => ks
  | .error _ => exSlotZero

/-- A slot whose decrypt key differs from its encrypt key, the normal
configuration of a real peer pair. -/
def exInitBad : Except Int KeySlot × Nat :=
  ovpn_aead_crypto_key_slot_init .aes_gcm exKey1 16 exKey2 16 exTail 8 exTail 8 3 0

def exSlotBad : KeySlot :=
  match exInitBad.1 with
  | .ok ks => ks
  | .error _ => exSlotZero

/-- The wire packet obtained by encapsulating exPt on the loopback slot. -/
def exWire : List Nat :=
  match (ovpn_aead_encrypt exSlotLoop exPt exRnd).1 with
  | .ok w => w
  | .error _ => []

/-- The wire packet obtained by encapsulating exPt on the mismatched slot
(identical bytes to exWire since the encrypt sides agree). -/
def exWireBad : List Nat :=
  match (ovpn_aead_encrypt exSlotBad exPt exRnd).1 with
  | .ok w => w
  | .error _ => []

/-- exWire with one ciphertext byte changed. -/
def exWireTampered : List Nat :=
  exWire.take 24 ++ [(exWire.getD 24 0 + 1) % 256] ++ exWire.drop 25

/-- The loopback slot with its transmit counter forced to the last usable
value. -/
def exSlotMax : KeySlot := { exSlotLoop with pid_xmit := ⟨PKTID_MAX⟩ }

/-- A DATA_V1 wire packet image used to exhibit the V1 AAD range: op byte
48 = opcode 6 shifted into the high bits of the byte. -/
def c3pkt : List Nat := 48 :: List.range 24

/-! # Helper lemmas -/

theorem except_error_ne_ok (e : Int) (l : List Nat) :
    (Except.error e : Except Int (List Nat)) ≠ Except.ok l :=
  fun h => Except.noConfusion h

theorem be32_length (n : Nat) : (be32 n).length = 4 := rfl

theorem beNat_be32 (n : Nat) (h : n < 2 ^ 32) : beNat (be32 n) = n := by
  simp only [beNat, be32, List.foldl]
  omega

theorem be32_beNat (l : List Nat) (h : l.length = 4) (hb : ∀ b ∈ l, b < 256) :
    be32 (beNat l) = l := by
  match l, h with
  | [a, b, c, d], _ =>
    simp only [List.mem_cons, List.not_mem_nil, or_false, forall_eq_or_imp, forall_eq] at hb
    obtain ⟨h1, h2, h3, h4⟩ := hb
    have hv : beNat [a, b, c, d] = a * 2 ^ 24 + b * 2 ^ 16 + c * 2 ^ 8 + d := by
      simp only [beNat, List.foldl]
      ring
    rw [hv]
    simp only [be32, List.cons.injEq, and_true]
    omega

theorem streamEnc_length (key nonce : List Nat) (i : Nat) (l : List Nat) :
    (streamEnc key nonce i l).length = l.length := by
  induction l generalizing i with
  | nil => rfl
  | cons b bs ih => simp [streamEnc, ih]

theorem aeadTag_length (key nonce aad ct : List Nat) :
    (aeadTag key nonce aad ct).length = AUTH_TAG_SIZE := by
  simp [aeadTag]

theorem prf_lt (key nonce : List Nat) (i : Nat) : prf key nonce i < 256 :=
  Nat.mod_lt _ (by norm_num)

theorem streamDec_streamEnc (key nonce : List Nat) (i : Nat) (l : List Nat)
    (h : ∀ b ∈ l, b < 256) :
    streamDec key nonce i (streamEnc key nonce i l) = l := by
  induction l generalizing i with
  | nil => rfl
  | cons b bs ih =>
    have hb : b < 256 := h b (by simp)
    have hk : prf key nonce i < 256 := prf_lt key nonce i
    simp only [streamEnc, streamDec, List.cons.injEq]
    refine ⟨by omega, ih (i + 1) fun x hx => h x (by simp [hx])⟩

theorem get_random_bytes_length (rnd : List Nat) (n : Nat) :
    (get_random_bytes rnd n).length = n := by
  simp [get_random_bytes]

theorem pktid_write_rnd (pktid : Nat) (nt rnd : List Nat) :
    ovpn_pktid_aead_write pktid nt (get_random_bytes rnd NONCE_SIZE) =
      be32 pktid ++ nt.take NONCE_TAIL_SIZE := by
  have h : (get_random_bytes rnd NONCE_SIZE).drop (NONCE_WIRE_SIZE + NONCE_TAIL_SIZE) = [] := by
    apply List.drop_eq_nil_of_le
    rw [get_random_bytes_length]
    norm_num [NONCE_SIZE, NONCE_WIRE_SIZE, NONCE_TAIL_SIZE]
  simp [ovpn_pktid_aead_write, h]

theorem op32_compose_lt (a b c : Nat) : ovpn_op32_compose a b c < 2 ^ 32 := by
  unfold ovpn_op32_compose
  have h1 : a % 32 < 32 := Nat.mod_lt _ (by norm_num)
  have h2 : b % 8 < 8 := Nat.mod_lt _ (by norm_num)
  have h3 : c % 2 ^ 24 < 2 ^ 24 := Nat.mod_lt _ (by norm_num)
  omega

theorem extract_compose (a b c : Nat) :
    ovpn_opcode_extract (ovpn_op32_compose a b c) = a % 32 := by
  unfold ovpn_opcode_extract ovpn_op32_compose
  have h1 : a % 32 < 32 := Nat.mod_lt _ (by norm_num)
  have h2 : b % 8 < 8 := Nat.mod_lt _ (by norm_num)
  have h3 : c % 2 ^ 24 < 2 ^ 24 := Nat.mod_lt _ (by norm_num)
  omega

/-- Characterization of a successful encapsulation: when the transmit
counter has room, the wire packet is exactly the op word, the packet id,
the tag, and the ciphertext, sealed with the nonce {packet id, xmit tail}
and authenticated data {op word, packet id}. -/
theorem ovpn_aead_encrypt_eq (ks : KeySlot) (skb rnd : List Nat)
    (h : ks.pid_xmit.seq < PKTID_MAX) :
    ovpn_aead_encrypt ks skb rnd =
      (.ok (be32 (ovpn_op32_compose OVPN_DATA_V2 ks.key_id ks.remote_peer_id) ++
            (be32 (ks.pid_xmit.seq + 1) ++
             (aeadTag ks.encrypt.key
               (be32 (ks.pid_xmit.seq + 1) ++ ks.nonce_tail_xmit.take NONCE_TAIL_SIZE)
               (be32 (ovpn_op32_compose OVPN_DATA_V2 ks.key_id ks.remote_peer_id) ++
                be32 (ks.pid_xmit.seq + 1))
               (streamEnc ks.encrypt.key
                 (be32 (ks.pid_xmit.seq + 1) ++ ks.nonce_tail_xmit.take NONCE_TAIL_SIZE) 0 skb) ++
              streamEnc ks.encrypt.key
                (be32 (ks.pid_xmit.seq + 1) ++ ks.nonce_tail_xmit.take NONCE_TAIL_SIZE) 0 skb))),
       ⟨ks.pid_xmit.seq + 1⟩) := by
  have hx : ovpn_pktid_xmit_next ks.pid_xmit = (0, ks.pid_xmit.seq + 1, ⟨ks.pid_xmit.seq + 1⟩) := by
    simp [ovpn_pktid_xmit_next, h]
  have hwn : (be32 (ks.pid_xmit.seq + 1) ++ ks.nonce_tail_xmit.take NONCE_TAIL_SIZE).take
      NONCE_WIRE_SIZE = be32 (ks.pid_xmit.seq + 1) := by
    have h4 : NONCE_WIRE_SIZE = (be32 (ks.pid_xmit.seq + 1)).length := rfl
    rw [h4, List.take_left]
  simp only [ovpn_aead_encrypt, hx, pktid_write_rnd, hwn, aeadSeal]
  norm_num

/-- Characterization of decapsulation on a well-formed DATA_V2 packet image
{op word, 4-byte packet id, 16-byte tag, ciphertext}: the authenticated
data is the op word plus packet id, the nonce is the packet id plus the
receive tail, and on tag success the packet id is submitted to the replay
window. -/
theorem ovpn_aead_decrypt_v2_eq (ks : KeySlot) (opw : Nat) (pidb tag ct : List Nat)
    (hpid : pidb.length = 4) (htag : tag.length = AUTH_TAG_SIZE)
    (hopc : ovpn_opcode_extract opw = OVPN_DATA_V2) :
    ovpn_aead_decrypt ks (be32 opw ++ (pidb ++ (tag ++ ct))) opw =
      (match aeadOpen ks.decrypt.key (pidb ++ ks.nonce_tail_recv) (be32 opw ++ pidb) ct tag with
       | .error e => (.error e, ks.pid_recv)
       | .ok pt =>
           let rr := ovpn_pktid_recv ks.pid_recv (beNat pidb)
           if rr.1 < 0 then (.error rr.1, rr.2) else (.ok pt, rr.2)) := by
  have hlen : (be32 opw ++ (pidb ++ (tag ++ ct))).length = 24 + ct.length := by
    simp [hpid, htag, AUTH_TAG_SIZE, be32_length]
    omega
  have hop4 : opcode_opsize OVPN_DATA_V2 = 4 := rfl
  have hassoc : be32 opw ++ (pidb ++ (tag ++ ct)) = (be32 opw ++ pidb) ++ (tag ++ ct) := by
    simp [List.append_assoc]
  have htake8 : (be32 opw ++ (pidb ++ (tag ++ ct))).take 8 = be32 opw ++ pidb := by
    rw [hassoc]
    have h8 : (8 : Nat) = (be32 opw ++ pidb).length := by simp [hpid, be32_length]
    rw [h8, List.take_left]
  have hdrop8 : (be32 opw ++ (pidb ++ (tag ++ ct))).drop 8 = tag ++ ct := by
    rw [hassoc]
    have h8 : (8 : Nat) = (be32 opw ++ pidb).length := by simp [hpid, be32_length]
    rw [h8, List.drop_left]
  have htag16 : ((be32 opw ++ (pidb ++ (tag ++ ct))).drop 8).take 16 = tag := by
    rw [hdrop8]
    have h16 : (16 : Nat) = tag.length := by rw [htag]; rfl
    rw [h16, List.take_left]
  have hct : (be32 opw ++ (pidb ++ (tag ++ ct))).drop 24 = ct := by
    have h24 : (24 : Nat) = 8 + 16 := by norm_num
    rw [h24, ← List.drop_drop, hdrop8]
    have h16 : (16 : Nat) = tag.length := by rw [htag]; rfl
    rw [h16, List.drop_left]
  have hdrop4 : (be32 opw ++ (pidb ++ (tag ++ ct))).drop 4 = pidb ++ (tag ++ ct) := by
    have h4 : (4 : Nat) = (be32 opw).length := rfl
    rw [h4, List.drop_left]
  have hpidb : ((be32 opw ++ (pidb ++ (tag ++ ct))).drop 4).take 4 = pidb := by
    rw [hdrop4]
    have h4 : (4 : Nat) = pidb.length := by rw [hpid]
    rw [h4, List.take_left]
  have hne : (OVPN_DATA_V2 = OVPN_DATA_V1) ↔ False := by
    norm_num [OVPN_DATA_V2, OVPN_DATA_V1]
  have hv2 : OVPN_OP_SIZE_V2 = 4 := rfl
  have hnw : NONCE_WIRE_SIZE = 4 := rfl
  have h16a : AUTH_TAG_SIZE = 16 := rfl
  simp only [ovpn_aead_decrypt, hopc, decrypt_ad, decrypt_iv, opcode_opsize,
    eq_self_iff_true, true_or, if_true, hne, if_false, hv2, hnw, h16a, hlen]
  norm_num
  rw [htake8, htag16, hct, hpidb]

/-- Round trip on a slot whose receive direction mirrors its transmit
direction: decapsulation of a fresh encapsulation yields the plaintext and
records the packet id. -/
theorem aead_decrypt_encrypt (ks : KeySlot) (P rnd : List Nat)
    (hseq : ks.pid_xmit.seq < PKTID_MAX)
    (hkey : ks.decrypt = ks.encrypt)
    (htail : ks.nonce_tail_recv = ks.nonce_tail_xmit.take NONCE_TAIL_SIZE)
    (hP : ∀ b ∈ P, b < 256)
    (hrecv : (ovpn_pktid_recv ks.pid_recv (ks.pid_xmit.seq + 1)).1 = 0)
    (w : List Nat) (s : PidXmit)
    (hw : ovpn_aead_encrypt ks P rnd = (.ok w, s)) :
    (ovpn_aead_decrypt ks w (ovpn_op32_from_skb w)).1 = .ok P := by
  have he := ovpn_aead_encrypt_eq ks P rnd hseq
  rw [hw] at he
  have hwv : w = be32 (ovpn_op32_compose OVPN_DATA_V2 ks.key_id ks.remote_peer_id) ++
      (be32 (ks.pid_xmit.seq + 1) ++
       (aeadTag ks.encrypt.key
         (be32 (ks.pid_xmit.seq + 1) ++ ks.nonce_tail_xmit.take NONCE_TAIL_SIZE)
         (be32 (ovpn_op32_compose OVPN_DATA_V2 ks.key_id ks.remote_peer_id) ++
          be32 (ks.pid_xmit.seq + 1))
         (streamEnc ks.encrypt.key
           (be32 (ks.pid_xmit.seq + 1) ++ ks.nonce_tail_xmit.take NONCE_TAIL_SIZE) 0 P) ++
        streamEnc ks.encrypt.key
          (be32 (ks.pid_xmit.seq + 1) ++ ks.nonce_tail_xmit.take NONCE_TAIL_SIZE) 0 P)) :=
    Except.ok.inj (congrArg Prod.fst he)
  subst hwv
  have hopc : ovpn_opcode_extract (ovpn_op32_compose OVPN_DATA_V2 ks.key_id ks.remote_peer_id) =
      OVPN_DATA_V2 := by
    rw [extract_compose]
    decide
  have hop : ovpn_op32_from_skb (be32 (ovpn_op32_compose OVPN_DATA_V2 ks.key_id ks.remote_peer_id) ++
      (be32 (ks.pid_xmit.seq + 1) ++
       (aeadTag ks.encrypt.key
         (be32 (ks.pid_xmit.seq + 1) ++ ks.nonce_tail_xmit.take NONCE_TAIL_SIZE)
         (be32 (ovpn_op32_compose OVPN_DATA_V2 ks.key_id ks.remote_peer_id) ++
          be32 (ks.pid_xmit.seq + 1))
         (streamEnc ks.encrypt.key
           (be32 (ks.pid_xmit.seq + 1) ++ ks.nonce_tail_xmit.take NONCE_TAIL_SIZE) 0 P) ++
        streamEnc ks.encrypt.key
          (be32 (ks.pid_xmit.seq + 1) ++ ks.nonce_tail_xmit.take NONCE_TAIL_SIZE) 0 P))) =
      ovpn_op32_compose OVPN_DATA_V2 ks.key_id ks.remote_peer_id := by
    rw [ovpn_op32_from_skb]
    have h4 : (4 : Nat) = (be32 (ovpn_op32_compose OVPN_DATA_V2 ks.key_id ks.remote_peer_id)).length :=
      rfl
    rw [h4, List.take_left]
    exact beNat_be32 _ (op32_compose_lt _ _ _)
  rw [hop, ovpn_aead_decrypt_v2_eq ks _ _ _ _ (be32_length _) (aeadTag_length _ _ _ _) hopc,
    hkey, htail]
  have hlt : ks.pid_xmit.seq + 1 < 2 ^ 32 := by
    have h2 := hseq
    unfold PKTID_MAX at h2
    omega
  simp only [aeadOpen, if_pos rfl, beNat_be32 _ hlt]
  rw [streamDec_streamEnc _ _ _ _ hP]
  rw [hrecv]
  norm_num

/-- Inversion of a successful key-slot creation: the returned slot carries
the installed keys, the copied nonce tails and fresh packet-id state. -/
theorem key_slot_init_ok_fields
    (alg : ovpn_cipher_alg) (ek : List Nat) (el : Nat) (dk : List Nat) (dl : Nat)
    (et : List Nat) (etl : Nat) (dt : List Nat) (dtl : Nat) (kid live : Nat)
    (ks : KeySlot) (live2 : Nat)
    (h : ovpn_aead_crypto_key_slot_init alg ek el dk dl et etl dt dtl kid live =
      (.ok ks, live2)) :
    ks = { key_id := kid
           remote_peer_id := 0
           encrypt := ⟨ek.take el⟩
           decrypt := ⟨dk.take dl⟩
           nonce_tail_xmit := et.take NONCE_TAIL_SIZE
           nonce_tail_recv := dt.take NONCE_TAIL_SIZE
           pid_xmit := ovpn_pktid_xmit_init
           pid_recv := ovpn_pktid_recv_init } := by
  cases alg with
  | alg_none => simp [ovpn_aead_crypto_key_slot_init] at h
  | aes_gcm =>
    simp only [ovpn_aead_crypto_key_slot_init, ovpn_aead_init] at h
    by_cases h1 : el = 16 ∨ el = 24 ∨ el = 32
    · simp only [if_pos h1] at h
      by_cases h2 : dl = 16 ∨ dl = 24 ∨ dl = 32
      · simp only [if_pos h2] at h
        by_cases h3 : NONCE_TAIL_SIZE ≠ etl ∨ NONCE_TAIL_SIZE ≠ dtl
        · rw [if_pos h3] at h
          exact absurd (congrArg Prod.fst h) (by simp)
        · rw [if_neg h3] at h
          exact (Except.ok.inj (congrArg Prod.fst h)).symm
      · simp only [if_neg h2] at h
        exact absurd (congrArg Prod.fst h) (by simp)
    · simp only [if_neg h1] at h
      exact absurd (congrArg Prod.fst h) (by simp)

/-! # Claim theorems -/

/-- C1 (amended): for every plaintext packet P and every successfully
created KeySlot whose receive direction mirrors its transmit direction
(same key and same nonce tail for both directions, as a loopback self-test
configures them), decapsulating the wire packet produced by encapsulating
P under the slot returns exactly P. -/
theorem C1_round_trip
    (key tail P rnd : List Nat) (klen kid live : Nat) (ks : KeySlot) (live2 : Nat)
    (hks : ovpn_aead_crypto_key_slot_init .aes_gcm key klen key klen
      tail NONCE_TAIL_SIZE tail NONCE_TAIL_SIZE kid live = (.ok ks, live2))
    (hP : ∀ b ∈ P, b < 256)
    (w : List Nat) (s : PidXmit)
    (hw : ovpn_aead_encrypt ks P rnd = (.ok w, s)) :
    (ovpn_aead_decrypt ks w (ovpn_op32_from_skb w)).1 = .ok P := by
  have hf := key_slot_init_ok_fields _ _ _ _ _ _ _ _ _ _ _ _ _ hks
  subst hf
  apply aead_decrypt_encrypt _ P rnd _ _ _ hP _ w s hw
  · norm_num [ovpn_pktid_xmit_init, PKTID_MAX]
  · rfl
  · rw [List.take_take]
    norm_num
  · show (ovpn_pktid_recv ovpn_pktid_recv_init (ovpn_pktid_xmit_init.seq + 1)).1 = 0
    decide

/-- C1 witness: the round trip evaluated on the concrete loopback slot. -/
theorem C1_round_trip_witness :
    (ovpn_aead_decrypt exSlotLoop exWire (ovpn_op32_from_skb exWire)).1 = .ok exPt :=
  C1_round_trip exKey1 exTail exPt exRnd 16 3 0 exSlotLoop 2 (by rfl) (by decide)
    exWire ⟨1⟩ (by rfl)

/-- C1 counterexample: a successfully created KeySlot whose decrypt key
differs from its encrypt key (the normal two-key configuration) does not
round trip: decapsulating its own encapsulation of exPt fails with the
authentication error instead of returning exPt. -/
theorem C1_cex :
    exInitBad.1 = Except.ok exSlotBad ∧
    (ovpn_aead_encrypt exSlotBad exPt exRnd).1 = Except.ok exWireBad ∧
    (ovpn_aead_decrypt exSlotBad exWireBad (ovpn_op32_from_skb exWireBad)).1 =
      Except.error (-EBADMSG) ∧
    (Except.error (-EBADMSG) : Except Int (List Nat)) ≠ Except.ok exPt :=
  ⟨rfl, rfl, rfl, except_error_ne_ok _ _⟩

/-- C2: when the transmit counter of a slot would wrap, encapsulation fails
with the packet-id-exhausted error and produces no wire packet; the counter
is left in place, so every later attempt on that slot fails the same way
until the slot is replaced; and a successful ovpn_pktid_xmit_next only ever
steps the counter up by one inside the 32-bit space, never wrapping back to
a previously used value. -/
theorem C2_exhaustion (ks : KeySlot) (skb rnd : List Nat)
    (h : PKTID_MAX ≤ ks.pid_xmit.seq) :
    ovpn_aead_encrypt ks skb rnd = (.error (-ERANGE), ks.pid_xmit) ∧
    (∀ skb2 rnd2, ovpn_aead_encrypt { ks with pid_xmit := (ovpn_aead_encrypt ks skb rnd).2 }
        skb2 rnd2 = (.error (-ERANGE), ks.pid_xmit)) ∧
    (∀ p : PidXmit, (ovpn_pktid_xmit_next p).1 = 0 →
      (ovpn_pktid_xmit_next p).2.1 = p.seq + 1 ∧
      (ovpn_pktid_xmit_next p).2.2.seq = p.seq + 1 ∧
      (ovpn_pktid_xmit_next p).2.1 ≤ PKTID_MAX) := by
  have hx : ovpn_pktid_xmit_next ks.pid_xmit = (-ERANGE, 0, ks.pid_xmit) := by
    simp [ovpn_pktid_xmit_next, Nat.not_lt.mpr h]
  have hgen : ∀ skb2 rnd2 : List Nat,
      ovpn_aead_encrypt ks skb2 rnd2 = (.error (-ERANGE), ks.pid_xmit) := by
    intro skb2 rnd2
    simp only [ovpn_aead_encrypt, hx]
    norm_num [ERANGE]
  refine ⟨hgen skb rnd, ?_, ?_⟩
  · intro skb2 rnd2
    rw [hgen skb rnd]
    exact hgen skb2 rnd2
  · intro p hp
    by_cases hlt : p.seq < PKTID_MAX
    · simp only [ovpn_pktid_xmit_next, if_pos hlt]
      refine ⟨trivial, trivial, ?_⟩
      omega
    · simp only [ovpn_pktid_xmit_next, if_neg hlt] at hp
      norm_num [ERANGE] at hp

/-- C2 witness: the exhausted slot rejects encapsulation and leaves its
counter unchanged. -/
theorem C2_exhaustion_witness :
    ovpn_aead_encrypt exSlotMax exPt exRnd = (.error (-ERANGE), exSlotMax.pid_xmit) :=
  (C2_exhaustion exSlotMax exPt exRnd (by decide)).1

theorem from_skb_op (a : Nat) (h : a < 2 ^ 32) (X : List Nat) :
    ovpn_op32_from_skb (be32 a ++ X) = a := by
  rw [ovpn_op32_from_skb]
  have h4 : (4 : Nat) = (be32 a).length := rfl
  rw [h4, List.take_left]
  exact beNat_be32 _ h

theorem take8_op_pid (a b : Nat) (X : List Nat) :
    (be32 a ++ (be32 b ++ X)).take 8 = be32 a ++ be32 b := by
  have hassoc : be32 a ++ (be32 b ++ X) = (be32 a ++ be32 b) ++ X := by
    simp [List.append_assoc]
  rw [hassoc]
  have h8 : (8 : Nat) = (be32 a ++ be32 b).length := by simp [be32_length]
  rw [h8, List.take_left]

theorem encrypt_ok_seq_lt (ks : KeySlot) (skb rnd w : List Nat) (s : PidXmit)
    (hw : ovpn_aead_encrypt ks skb rnd = (.ok w, s)) :
    ks.pid_xmit.seq < PKTID_MAX := by
  by_contra hseq
  have hx : ovpn_pktid_xmit_next ks.pid_xmit = (-ERANGE, 0, ks.pid_xmit) := by
    simp [ovpn_pktid_xmit_next, hseq]
  simp only [ovpn_aead_encrypt, hx] at hw
  norm_num [ERANGE] at hw
  exact Except.noConfusion hw.1

/-- C3 (amended): for DATA_V2 the additional authenticated data is exactly
the 4-byte op word plus the 4-byte wire packet id preceding the tag; for
DATA_V1 it is exactly the 4-byte wire packet id that follows the 1-byte op
byte — the V1 op byte itself is not part of the authenticated data; and
decapsulation of an encapsulated packet (always DATA_V2) authenticates
exactly the op-word-plus-packet-id bytes that encapsulation authenticated. -/
theorem C3_aad :
    (∀ skb : List Nat, decrypt_ad OVPN_DATA_V2 skb =
       skb.take (OVPN_OP_SIZE_V2 + NONCE_WIRE_SIZE)) ∧
    (∀ skb : List Nat, decrypt_ad OVPN_DATA_V1 skb =
       (skb.drop OVPN_OP_SIZE_V1).take NONCE_WIRE_SIZE) ∧
    (∀ (ks : KeySlot) (P rnd w : List Nat) (s : PidXmit),
       ovpn_aead_encrypt ks P rnd = (.ok w, s) →
       decrypt_ad (ovpn_opcode_extract (ovpn_op32_from_skb w)) w =
         be32 (ovpn_op32_compose OVPN_DATA_V2 ks.key_id ks.remote_peer_id) ++
           be32 (ks.pid_xmit.seq + 1)) := by
  refine ⟨?_, ?_, ?_⟩
  · intro skb
    rw [decrypt_ad, if_neg (by decide)]
  · intro skb
    rw [decrypt_ad, if_pos rfl]
  · intro ks P rnd w s hw
    have hseq := encrypt_ok_seq_lt ks P rnd w s hw
    have he := ovpn_aead_encrypt_eq ks P rnd hseq
    rw [hw] at he
    have hwv := Except.ok.inj (congrArg Prod.fst he)
    subst hwv
    rw [from_skb_op _ (op32_compose_lt _ _ _), extract_compose]
    have h9 : OVPN_DATA_V2 % 32 = OVPN_DATA_V2 := by decide
    rw [h9, decrypt_ad, if_neg (by decide)]
    have h8 : OVPN_OP_SIZE_V2 + NONCE_WIRE_SIZE = 8 := rfl
    rw [h8, take8_op_pid]

/-- C3 witness: the decapsulation AAD of a concrete encapsulated packet is
the op word plus packet id that encapsulation authenticated. -/
theorem C3_aad_witness :
    decrypt_ad (ovpn_opcode_extract (ovpn_op32_from_skb exWire)) exWire =
      be32 (ovpn_op32_compose OVPN_DATA_V2 exSlotLoop.key_id exSlotLoop.remote_peer_id) ++
        be32 (exSlotLoop.pid_xmit.seq + 1) :=
  C3_aad.2.2 exSlotLoop exPt exRnd exWire ⟨1⟩ (by rfl)

/-- C3 counterexample: on a DATA_V1 packet the bytes the decapsulation
authenticates are not the 1-byte op plus the 4-byte packet id that precede
the ciphertext: the op byte is left out. -/
theorem C3_cex :
    decrypt_ad OVPN_DATA_V1 c3pkt ≠ c3pkt.take (OVPN_OP_SIZE_V1 + NONCE_WIRE_SIZE) := by
  decide

/-- C4: the encapsulation nonce is exactly the 4-byte packet id followed by
the transmit-direction nonce tail — the freshly drawn random bytes are
fully overwritten, so the wire packet does not depend on the entropy input
at all — and the decapsulation nonce is recomputed as the 4-byte wire
packet-id field followed by the receive-direction nonce tail. -/
theorem C4_nonce :
    (∀ (pktid : Nat) (nt rnd : List Nat), nt.length = NONCE_TAIL_SIZE →
       ovpn_pktid_aead_write pktid nt (get_random_bytes rnd NONCE_SIZE) = be32 pktid ++ nt) ∧
    (∀ (ks : KeySlot) (skb rnd rnd2 : List Nat),
       ovpn_aead_encrypt ks skb rnd = ovpn_aead_encrypt ks skb rnd2) ∧
    (∀ (ks : KeySlot) (opsize : Nat) (skb : List Nat),
       opsize + NONCE_WIRE_SIZE ≤ skb.length →
       (∀ b ∈ (skb.drop opsize).take NONCE_WIRE_SIZE, b < 256) →
       decrypt_iv ks opsize skb =
         be32 (beNat ((skb.drop opsize).take NONCE_WIRE_SIZE)) ++ ks.nonce_tail_recv) := by
  refine ⟨?_, ?_, ?_⟩
  · intro pktid nt rnd h
    rw [pktid_write_rnd]
    congr 1
    exact List.take_of_length_le (by rw [h])
  · intro ks skb rnd rnd2
    simp only [ovpn_aead_encrypt, pktid_write_rnd]
  · intro ks opsize skb hlen hb
    rw [decrypt_iv]
    congr 1
    refine (be32_beNat _ ?_ hb).symm
    have hnw : NONCE_WIRE_SIZE = 4 := rfl
    simp [List.length_take, List.length_drop, hnw]
    omega

/-- C4 witness: the nonce facts evaluated on concrete material. -/
theorem C4_nonce_witness :
    ovpn_pktid_aead_write 1 exTail (get_random_bytes exRnd NONCE_SIZE) = be32 1 ++ exTail ∧
    ovpn_aead_encrypt exSlotLoop exPt [9, 9, 9] = ovpn_aead_encrypt exSlotLoop exPt exRnd ∧
    decrypt_iv exSlotLoop 4 exWire =
      be32 (beNat ((exWire.drop 4).take NONCE_WIRE_SIZE)) ++ exSlotLoop.nonce_tail_recv :=
  ⟨C4_nonce.1 1 exTail exRnd (by decide),
   C4_nonce.2.1 exSlotLoop exPt [9, 9, 9] exRnd,
   C4_nonce.2.2 exSlotLoop 4 exWire (by decide) (by decide)⟩

/-- C5: the replay window is consulted and updated only after the tag
verifies: whenever the AEAD open step fails on exactly the byte ranges the
decapsulation feeds it, the call returns that authentication error, the
replay state is unchanged, and no plaintext is returned. -/
theorem C5_auth_before_replay (ks : KeySlot) (skb : List Nat) (op : Nat) (e : Int)
    (hop : ovpn_opcode_extract op = OVPN_DATA_V2 ∨ ovpn_opcode_extract op = OVPN_DATA_V1)
    (hlen : ¬ skb.length <
      opcode_opsize (ovpn_opcode_extract op) + NONCE_WIRE_SIZE + AUTH_TAG_SIZE)
    (hauth : aeadOpen ks.decrypt.key
        (decrypt_iv ks (opcode_opsize (ovpn_opcode_extract op)) skb)
        (decrypt_ad (ovpn_opcode_extract op) skb)
        (skb.drop (opcode_opsize (ovpn_opcode_extract op) + NONCE_WIRE_SIZE + AUTH_TAG_SIZE))
        ((skb.drop (opcode_opsize (ovpn_opcode_extract op) + NONCE_WIRE_SIZE)).take
          AUTH_TAG_SIZE) = .error e) :
    ovpn_aead_decrypt ks skb op = (.error e, ks.pid_recv) := by
  simp only [ovpn_aead_decrypt]
  rw [if_pos hop, if_neg hlen, hauth]

/-- C5 witness: a concrete wire packet with one flipped ciphertext byte is
rejected with the authentication error and the replay state untouched. -/
theorem C5_auth_before_replay_witness :
    ovpn_aead_decrypt exSlotLoop exWireTampered (ovpn_op32_from_skb exWireTampered) =
      (.error (-EBADMSG), exSlotLoop.pid_recv) :=
  C5_auth_before_replay exSlotLoop exWireTampered (ovpn_op32_from_skb exWireTampered)
    (-EBADMSG) (by decide) (by decide) (by rfl)

/-- C6: key-slot creation rejects any algorithm other than the single
supported AEAD family with EOPNOTSUPP, rejects a nonce-tail length differing
from the fixed tail size in either direction with EINVAL, frees every cipher
context it already constructed on every failure path (the live-context
ledger is returned to its initial value), and on success both directions
carry fresh packet-id state. -/
theorem C6_key_slot_creation :
    (∀ (alg : ovpn_cipher_alg) (ek : List Nat) (el : Nat) (dk : List Nat) (dl : Nat)
       (et : List Nat) (etl : Nat) (dt : List Nat) (dtl : Nat) (kid live : Nat),
       alg ≠ .aes_gcm →
       ovpn_aead_crypto_key_slot_init alg ek el dk dl et etl dt dtl kid live =
         (.error (-EOPNOTSUPP), live)) ∧
    (∀ (ek : List Nat) (el : Nat) (dk : List Nat) (dl : Nat)
       (et : List Nat) (etl : Nat) (dt : List Nat) (dtl : Nat) (kid live : Nat),
       (el = 16 ∨ el = 24 ∨ el = 32) → (dl = 16 ∨ dl = 24 ∨ dl = 32) →
       (NONCE_TAIL_SIZE ≠ etl ∨ NONCE_TAIL_SIZE ≠ dtl) →
       ovpn_aead_crypto_key_slot_init .aes_gcm ek el dk dl et etl dt dtl kid live =
         (.error (-EINVAL), live)) ∧
    (∀ (alg : ovpn_cipher_alg) (ek : List Nat) (el : Nat) (dk : List Nat) (dl : Nat)
       (et : List Nat) (etl : Nat) (dt : List Nat) (dtl : Nat) (kid live : Nat)
       (e : Int) (live2 : Nat),
       ovpn_aead_crypto_key_slot_init alg ek el dk dl et etl dt dtl kid live =
         (.error e, live2) → live2 = live) ∧
    (∀ (alg : ovpn_cipher_alg) (ek : List Nat) (el : Nat) (dk : List Nat) (dl : Nat)
       (et : List Nat) (etl : Nat) (dt : List Nat) (dtl : Nat) (kid live : Nat)
       (ks : KeySlot) (live2 : Nat),
       ovpn_aead_crypto_key_slot_init alg ek el dk dl et etl dt dtl kid live =
         (.ok ks, live2) →
       ks.pid_xmit = ovpn_pktid_xmit_init ∧ ks.pid_recv = ovpn_pktid_recv_init) := by
  refine ⟨?_, ?_, ?_, ?_⟩
  · intro alg ek el dk dl et etl dt dtl kid live hne
    cases alg with
    | alg_none => rfl
    | aes_gcm => exact absurd rfl hne
  · intro ek el dk dl et etl dt dtl kid live h1 h2 h3
    simp only [ovpn_aead_crypto_key_slot_init, ovpn_aead_init, if_pos h1, if_pos h2,
      if_pos h3, ovpn_aead_crypto_key_slot_destroy, crypto_free_aead]
    norm_num
  · intro alg ek el dk dl et etl dt dtl kid live e live2 h
    cases alg with
    | alg_none =>
      have h5 := congrArg Prod.snd h
      simp only [ovpn_aead_crypto_key_slot_init] at h5
      omega
    | aes_gcm =>
      simp only [ovpn_aead_crypto_key_slot_init, ovpn_aead_init] at h
      by_cases h1 : el = 16 ∨ el = 24 ∨ el = 32
      · simp only [if_pos h1] at h
        by_cases h2 : dl = 16 ∨ dl = 24 ∨ dl = 32
        · simp only [if_pos h2] at h
          by_cases h3 : NONCE_TAIL_SIZE ≠ etl ∨ NONCE_TAIL_SIZE ≠ dtl
          · rw [if_pos h3] at h
            have := congrArg Prod.snd h
            simp only [ovpn_aead_crypto_key_slot_destroy, crypto_free_aead] at this
            omega
          · rw [if_neg h3] at h
            exact absurd (congrArg Prod.fst h) (by simp)
        · simp only [if_neg h2] at h
          have := congrArg Prod.snd h
          simp only [ovpn_aead_crypto_key_slot_destroy, crypto_free_aead] at this
          omega
      · simp only [if_neg h1] at h
        have := congrArg Prod.snd h
        simp only [ovpn_aead_crypto_key_slot_destroy, crypto_free_aead] at this
        omega
  · intro alg ek el dk dl et etl dt dtl kid live ks live2 h
    have hf := key_slot_init_ok_fields _ _ _ _ _ _ _ _ _ _ _ _ _ h
    subst hf
    exact ⟨rfl, rfl⟩

/-- C6 witness: the creation paths evaluated on concrete configurations. -/
theorem C6_key_slot_creation_witness :
    ovpn_aead_crypto_key_slot_init .alg_none exKey1 16 exKey1 16 exTail 8 exTail 8 0 5 =
      (.error (-EOPNOTSUPP), 5) ∧
    ovpn_aead_crypto_key_slot_init .aes_gcm exKey1 16 exKey1 16 exTail 7 exTail 8 0 5 =
      (.error (-EINVAL), 5) ∧
    (exSlotLoop.pid_xmit = ovpn_pktid_xmit_init ∧
     exSlotLoop.pid_recv = ovpn_pktid_recv_init) :=
  ⟨C6_key_slot_creation.1 .alg_none exKey1 16 exKey1 16 exTail 8 exTail 8 0 5 (by decide),
   C6_key_slot_creation.2.1 exKey1 16 exKey1 16 exTail 7 exTail 8 0 5
     (by norm_num) (by norm_num) (by decide),
   C6_key_slot_creation.2.2.2 .aes_gcm exKey1 16 exKey1 16 exTail 8 exTail 8 3 0
     exSlotLoop 2 (by rfl)⟩

/-- C7: a wire packet too short to contain the variant header, the 4-byte
wire packet id and the 16-byte tag is rejected with EINVAL (Truncated)
before any cryptographic processing and the replay state is unchanged. -/
theorem C7_truncated (ks : KeySlot) (skb : List Nat) (op : Nat)
    (hop : ovpn_opcode_extract op = OVPN_DATA_V2 ∨ ovpn_opcode_extract op = OVPN_DATA_V1)
    (hshort : skb.length <
      opcode_opsize (ovpn_opcode_extract op) + NONCE_WIRE_SIZE + AUTH_TAG_SIZE) :
    ovpn_aead_decrypt ks skb op = (.error (-EINVAL), ks.pid_recv) := by
  simp only [ovpn_aead_decrypt]
  rw [if_pos hop, if_pos hshort]

/-- C7 witness: a 23-byte DATA_V2 packet is rejected as truncated. -/
theorem C7_truncated_witness :
    ovpn_aead_decrypt exSlotLoop (exWire.take 23) (ovpn_op32_from_skb exWire) =
      (.error (-EINVAL), exSlotLoop.pid_recv) :=
  C7_truncated exSlotLoop (exWire.take 23) (ovpn_op32_from_skb exWire)
    (by decide) (by decide)

/-- C8: bind construction accepts exactly the two supported address
families: any other family fails with EAFNOSUPPORT and no Bind is produced;
a supported family yields a Bind holding a copy of the address of the
family-appropriate length. -/
theorem C8_bind_families :
    (∀ ss : SockaddrStorage, ss.ss_family ≠ AF_INET → ss.ss_family ≠ AF_INET6 →
       ovpn_bind_from_sockaddr ss = .error (-EAFNOSUPPORT)) ∧
    (∀ ss : SockaddrStorage, ss.ss_family = AF_INET →
       ovpn_bind_from_sockaddr ss =
         .ok ⟨AF_INET, ss.ss_data.take (sizeof_sockaddr_in - 2)⟩) ∧
    (∀ ss : SockaddrStorage, ss.ss_family = AF_INET6 →
       ovpn_bind_from_sockaddr ss =
         .ok ⟨AF_INET6, ss.ss_data.take (sizeof_sockaddr_in6 - 2)⟩) := by
  refine ⟨?_, ?_, ?_⟩
  · intro ss h4 h6
    simp [ovpn_bind_from_sockaddr, h4, h6]
  · intro ss h
    simp [ovpn_bind_from_sockaddr, ovpn_sockaddr_validate, h]
  · intro ss h
    have hne : AF_INET6 ≠ AF_INET := by decide
    simp [ovpn_bind_from_sockaddr, ovpn_sockaddr_validate, h, hne]

/-- C8 witness: the three family cases on a concrete sockaddr payload. -/
theorem C8_bind_families_witness :
    ovpn_bind_from_sockaddr ⟨5, List.range 30⟩ = .error (-EAFNOSUPPORT) ∧
    ovpn_bind_from_sockaddr ⟨AF_INET, List.range 30⟩ =
      .ok ⟨AF_INET, (List.range 30).take (sizeof_sockaddr_in - 2)⟩ ∧
    ovpn_bind_from_sockaddr ⟨AF_INET6, List.range 30⟩ =
      .ok ⟨AF_INET6, (List.range 30).take (sizeof_sockaddr_in6 - 2)⟩ :=
  ⟨C8_bind_families.1 ⟨5, List.range 30⟩ (by decide) (by decide),
   C8_bind_families.2.1 ⟨AF_INET, List.range 30⟩ rfl,
   C8_bind_families.2.2 ⟨AF_INET6, List.range 30⟩ rfl⟩

/-- C10: a wire packet whose opcode is neither DATA_V1 nor DATA_V2 is
rejected with EINVAL right after the opcode is extracted, before any
decryption attempt or replay-state access, and the replay state is
returned unchanged. -/
theorem C10_invalid_opcode (ks : KeySlot) (skb : List Nat) (op : Nat)
    (h2 : ovpn_opcode_extract op ≠ OVPN_DATA_V2)
    (h1 : ovpn_opcode_extract op ≠ OVPN_DATA_V1) :
    ovpn_aead_decrypt ks skb op = (.error (-EINVAL), ks.pid_recv) := by
  simp only [ovpn_aead_decrypt]
  rw [if_neg (by tauto)]

/-- C10 witness: op word 0 (opcode 0) is rejected with EINVAL and the
replay state untouched. -/
theorem C10_invalid_opcode_witness :
    ovpn_aead_decrypt exSlotLoop exWire 0 = (.error (-EINVAL), exSlotLoop.pid_recv) :=
  C10_invalid_opcode exSlotLoop exWire 0 (by decide) (by decide)
